import Mathlib

/-!
# Verification of the slurm-spank-ramdisk lifecycle manager

Shallow embedding of `src/ramdisk.c`: the size parser (`parse_ramdisk_size`),
the path resolver (`get_directory`), and the two lifecycle hooks
(`slurm_spank_init_post_opt` = Provision, `slurm_spank_exit` = Teardown).

Machine integers are modelled as `Nat` with explicit `% 2 ^ 64` where the C
code can overflow (`uint64_t ramdisk_size`).  Filesystem and scheduler
interactions are modelled by an explicit state (an association list of paths
to entries) plus injected syscall outcomes.
-/

deriving instance DecidableEq for Except

/-! ## Character helpers (C locale semantics used by `sscanf`) -/

/-- C `isdigit`: the character codes of 0-9 (48..57). -/
def isDigitChar (c : Char) : Bool := 48 ≤ c.toNat && c.toNat ≤ 57

/-- C `isspace` in the default locale: space (32) and 9..13. -/
def isSpaceChar (c : Char) : Bool := c.toNat = 32 || (9 ≤ c.toNat && c.toNat ≤ 13)

/-- Value of a list of decimal digit characters, most significant first
(the accumulation performed by `strtoull`/`sscanf` on the digit run). -/
def digitsVal (cs : List Char) : Nat :=
  cs.foldl (fun a c => a * 10 + (c.toNat - 48)) 0

/-- The decimal digit character for `d < 10` (as printf `%u` emits). -/
def digitChar : Nat → Char
  | 0 => '0' | 1 => '1' | 2 => '2' | 3 => '3' | 4 => '4'
  | 5 => '5' | 6 => '6' | 7 => '7' | 8 => '8' | 9 => '9'
  | _ => '*'

/-- Fuel-indexed decimal printer (structural recursion so that the kernel can
evaluate it); `fuel > n` suffices. -/
def decDigitsGo : Nat → Nat → List Char
  | 0, _ => []
  | fuel + 1, n =>
    if n < 10 then [digitChar n]
    else decDigitsGo fuel (n / 10) ++ [digitChar (n % 10)]

/-- Decimal digit string of `n`, most significant first: the output of
printf `%u`/`%llu` on `n`. -/
def decDigits (n : Nat) : List Char := decDigitsGo (n + 1) n

/-- printf `%u` of a machine integer value, as a string. -/
def u32_dec (n : Nat) : String := ⟨decDigits n⟩

/-! ## `sscanf(optarg, "%llu%c", &ramdisk_size, &ramdisk_unit)` -/

/--
Model of the C library call `sscanf(s, "%llu%c", ...)` on the character list
of `s`.  `%llu` skips leading white space, accepts an optional sign and then
a non-empty run of decimal digits (conversion taken modulo `2 ^ 64`;
out-of-range behaviour is implementation-defined in C, every claim below
only relies on in-range values); `%c` consumes the next character if any.
Returns `none` when the numeric conversion fails (0 assignments, nothing
stored), otherwise `some (value, optional following character)`.
-/
def sscanf_sign : List Char → Bool × List Char
  | [] => (false, [])
  | c :: r =>
    if c = '-' then (true, r)
    else if c = '+' then (false, r)
    else (false, c :: r)

/-- The `%llu` conversion after sign handling: value of the leading digit
run, reduced modulo `2 ^ 64`, negated when the sign was `-` (the `strtoull`
negation rule). -/
def sscanf_val (neg : Bool) (ds : List Char) : Nat :=
  if neg then (2 ^ 64 - digitsVal ds % 2 ^ 64) % 2 ^ 64 else digitsVal ds % 2 ^ 64

def sscanf_u64_c (cs : List Char) : Option (Nat × Option Char) :=
  if ((sscanf_sign (cs.dropWhile isSpaceChar)).2.takeWhile isDigitChar) = [] then
    none
  else
    some
      (sscanf_val (sscanf_sign (cs.dropWhile isSpaceChar)).1
        ((sscanf_sign (cs.dropWhile isSpaceChar)).2.takeWhile isDigitChar),
       ((sscanf_sign (cs.dropWhile isSpaceChar)).2.dropWhile isDigitChar).head?)

/-! ## `parse_ramdisk_size` -/

/-- The distinct `slurm_error` messages `parse_ramdisk_size` can emit before
returning `ESPANK_ERROR` (the C function collapses them all to one code). -/
inductive ParseErr
  | invalidFormat
  | invalidUnit
  | zeroSize
deriving DecidableEq, Repr

/--
`static int parse_ramdisk_size(int val, const char *optarg, int remote)`
from `src/ramdisk.c`.  The second component of the result is the value of the
process-wide global `ramdisk_size` after the call (the `sscanf` writes into
the global directly, so the global can be clobbered even when the function
fails); `old` is its value before the call.
-/
def parse_ramdisk_size (optarg : String) (old : Nat) : Except ParseErr Unit × Nat :=
  match sscanf_u64_c optarg.toList with
  | none => (.error .invalidFormat, old)
  | some (n, sel) =>
    match sel with
    | none =>
      -- n_args == 1 : unit undefined, defaulting to megabytes
      if n = 0 then (.error .zeroSize, n) else (.ok (), n)
    | some u =>
      -- n_args == 2
      if u = 'G' then
        if n * 1024 % 2 ^ 64 = 0 then (.error .zeroSize, n * 1024 % 2 ^ 64)
        else (.ok (), n * 1024 % 2 ^ 64)
      else if u = 'M' then
        if n = 0 then (.error .zeroSize, n) else (.ok (), n)
      else (.error .invalidUnit, n)

/-! ## Path resolver: `get_directory` -/

/-- `SLURM_MAX_NORMAL_STEP_ID` from the public SLURM header `slurm.h`. -/
def SLURM_MAX_NORMAL_STEP_ID : Nat := 0xfffffff0

/-- `SLURM_PENDING_STEP` from `slurm.h`. -/
def SLURM_PENDING_STEP : Nat := 0xfffffffd

/-- `SLURM_EXTERN_CONT` from `slurm.h`. -/
def SLURM_EXTERN_CONT : Nat := 0xfffffffc

/-- `SLURM_BATCH_SCRIPT` from `slurm.h`. -/
def SLURM_BATCH_SCRIPT : Nat := 0xfffffffb

/-- `SLURM_INTERACTIVE_STEP` from `slurm.h`. -/
def SLURM_INTERACTIVE_STEP : Nat := 0xfffffffa

/-- The distinct failure messages of `get_directory`. -/
inductive DirErr
  | noJobId
  | noStepId
  | pendingStep
  | invalidStepId
deriving DecidableEq, Repr

/-- The branch structure of `get_directory` after the job id and step id have
been obtained from SPANK: pure resolution of the mount path. -/
def resolve_directory (job_id job_stepid : Nat) : Except DirErr String :=
  if job_stepid > SLURM_MAX_NORMAL_STEP_ID then
    if job_stepid = SLURM_PENDING_STEP then
      .error .pendingStep
    else if job_stepid = SLURM_EXTERN_CONT then
      .ok ("/ramdisks/" ++ u32_dec job_id ++ ".extern.ramdisk")
    else if job_stepid = SLURM_BATCH_SCRIPT then
      .ok ("/ramdisks/" ++ u32_dec job_id ++ ".batch.ramdisk")
    else if job_stepid = SLURM_INTERACTIVE_STEP then
      .ok ("/ramdisks/" ++ u32_dec job_id ++ ".interactive.ramdisk")
    else
      .error .invalidStepId
  else
    .ok ("/ramdisks/" ++ u32_dec job_id ++ "." ++ u32_dec job_stepid ++ ".ramdisk")

/-! ## Scheduler bridge state (`spank_get_item` answers) -/

/-- `spank_context_t` from `spank.h`. -/
inductive SpankContext
  | S_CTX_ERROR
  | S_CTX_LOCAL
  | S_CTX_REMOTE
  | S_CTX_ALLOCATOR
  | S_CTX_SLURMD
  | S_CTX_JOB_SCRIPT
deriving DecidableEq, Repr

/-- The scheduler-provided metadata for one hook invocation: each
`spank_get_item` query either succeeds with a value (`some`) or fails
(`none`). -/
structure Spank where
  context : SpankContext
  step_alloc_mem : Option Nat
  job_uid : Option Nat
  job_gid : Option Nat
  job_id : Option Nat
  job_stepid : Option Nat
deriving DecidableEq, Repr

/-- `static int get_directory(spank_t sp, char directory[])` from
`src/ramdisk.c`: queries job id and step id, then resolves the path. -/
def get_directory (sp : Spank) : Except DirErr String :=
  match sp.job_id with
  | none => .error .noJobId
  | some j =>
    match sp.job_stepid with
    | none => .error .noStepId
    | some s => resolve_directory j s

/-! ## Filesystem model -/

/-- A filesystem entry at a path: a directory (possibly carrying a tmpfs
mount, recorded with its option string) or something that is not a
directory (`stat` succeeds, `S_ISDIR` is false). -/
inductive FsEntry
  | dir (mountOpts : Option String)
  | nondir
deriving DecidableEq, Repr

/-- The node's filesystem, restricted to the paths this plugin touches:
an association list from path to entry.  Absent key = `stat` fails. -/
abbrev Fs := List (String × FsEntry)

/-- Remove a path from the filesystem (`rmdir`). -/
def fsErase (p : String) (fs : Fs) : Fs := fs.filter (fun e => e.1 ≠ p)

/-- Create or replace the entry at a path (`mkdir` / `mount`). -/
def fsSet (p : String) (e : FsEntry) (fs : Fs) : Fs := (p, e) :: fsErase p fs

/-- Injected outcomes of the fallible syscalls (`EPERM`, `EBUSY`, ... are
environment conditions, not computed by the plugin). -/
structure Sys where
  mkdir_ok : Bool
  mount_ok : Bool
  umount_ok : Bool
  rmdir_ok : Bool
deriving DecidableEq, Repr

/-- The mount option string built by
`snprintf(mount_options, ..., "size=%%lluM,uid=%%d,gid=%%d,mode=700", ...)`;
a failed GID query stores `(gid_t)-1`, printed as `-1` by `%d`. -/
def mount_options (size uid : Nat) (gid : Option Nat) : String :=
  "size=" ++ u32_dec size ++ "M,uid=" ++ u32_dec uid ++ ",gid=" ++
    (match gid with | some g => u32_dec g | none => "-1") ++ ",mode=700"

/-! ## Provision hook: `slurm_spank_init_post_opt` -/

/-- The distinct failure messages of `slurm_spank_init_post_opt` (the C
function reports them via `slurm_error` and returns `ESPANK_ERROR`). -/
inductive ProvErr
  | allocUnavailable
  | capacityExceedsAllocation
  | resolveFailed (e : DirErr)
  | uidUnavailable
  | pathConflict
  | mkdirFailed
  | mountFailed
deriving DecidableEq, Repr

/-- Result of one Provision invocation: the return code, the filesystem
afterwards, and the value exported as `SLURM_JOB_RAMDISK` (if the hook
reached the export step). -/
structure ProvisionResult where
  ret : Except ProvErr Unit
  fs : Fs
  exported : Option String
deriving DecidableEq, Repr

/--
`int slurm_spank_init_post_opt(spank_t sp, int ac, char **av)` from
`src/ramdisk.c`, with the process-wide global `ramdisk_size` passed
explicitly and the filesystem state threaded through.  Mirrors the C control
flow statement by statement: context gate, zero-size gate, allocation check,
path resolution, environment export (failure only logged), UID/GID queries,
`stat` dispatch, `mkdir`, `mount`.
-/
def slurm_spank_init_post_opt (sp : Spank) (sys : Sys) (ramdisk_size : Nat)
    (fs : Fs) : ProvisionResult :=
  if sp.context ≠ .S_CTX_REMOTE then
    ⟨.ok (), fs, none⟩
  else if ramdisk_size = 0 then
    ⟨.ok (), fs, none⟩
  else
    match sp.step_alloc_mem with
    | none => ⟨.error .allocUnavailable, fs, none⟩
    | some step_memory_allocation =>
      if step_memory_allocation ≤ ramdisk_size then
        ⟨.error .capacityExceedsAllocation, fs, none⟩
      else
        match get_directory sp with
        | .error e => ⟨.error (.resolveFailed e), fs, none⟩
        | .ok directory =>
          -- spank_setenv(sp, "SLURM_JOB_RAMDISK", directory, 1); failure logged
          match sp.job_uid with
          | none => ⟨.error .uidUnavailable, fs, some directory⟩
          | some uid =>
            -- failed GID query only logs and falls back to (gid_t)-1
            match fs.lookup directory with
            | some (.dir _) =>
              -- directory path exists: assume we have already mounted it
              ⟨.ok (), fs, some directory⟩
            | some .nondir =>
              ⟨.error .pathConflict, fs, some directory⟩
            | none =>
              if sys.mkdir_ok = false then
                ⟨.error .mkdirFailed, fs, some directory⟩
              else
                if sys.mount_ok = false then
                  ⟨.error .mountFailed, fsSet directory (.dir none) fs, some directory⟩
                else
                  ⟨.ok (),
                    fsSet directory
                      (.dir (some (mount_options ramdisk_size uid sp.job_gid))) fs,
                    some directory⟩

/-! ## Teardown hook: `slurm_spank_exit` -/

/-- The distinct failure modes of `slurm_spank_exit`. -/
inductive ExitErr
  | resolveFailed (e : DirErr)
  | umountFailed
deriving DecidableEq, Repr

/-- Result of one Teardown invocation: return code, filesystem afterwards,
and how many node-drain requests were issued (`scontrol ... state=DRAIN`). -/
structure ExitResult where
  ret : Except ExitErr Unit
  fs : Fs
  drains : Nat
deriving DecidableEq, Repr

/--
`int slurm_spank_exit(spank_t sp, int ac, char **av)` from `src/ramdisk.c`:
context gate, zero-size gate, path resolution, `stat` (absent = already torn
down), `umount` (failure drains the node and fails the hook), `rmdir`
(failure only logged).  `umount(2)` succeeds only on an actual mount point,
so an existing entry that is not a mounted directory makes the unmount fail
regardless of the injected outcome.
-/
def slurm_spank_exit (sp : Spank) (sys : Sys) (ramdisk_size : Nat)
    (fs : Fs) : ExitResult :=
  if sp.context ≠ .S_CTX_REMOTE then
    ⟨.ok (), fs, 0⟩
  else if ramdisk_size = 0 then
    ⟨.ok (), fs, 0⟩
  else
    match get_directory sp with
    | .error e => ⟨.error (.resolveFailed e), fs, 0⟩
    | .ok directory =>
      match fs.lookup directory with
      | none =>
        -- directory path missing: assume we have already deleted it
        ⟨.ok (), fs, 0⟩
      | some (.dir (some _)) =>
        if sys.umount_ok = false then
          ⟨.error .umountFailed, fs, 1⟩
        else
          if sys.rmdir_ok = false then
            -- failure to delete the directory is only logged
            ⟨.ok (), fsSet directory (.dir none) fs, 0⟩
          else
            ⟨.ok (), fsErase directory fs, 0⟩
      | some _ =>
        -- path exists but carries no tmpfs mount: umount(2) fails (EINVAL /
        -- ENOTDIR), which the code treats like any other unmount failure
        ⟨.error .umountFailed, fs, 1⟩

/-! ## Concrete scenarios (fixtures used to instantiate the theorems) -/

/-- The spec's happy-path scenario: job 100, step 0, allocation 4096M,
uid/gid 1000, running on the compute node. -/
def spHappy : Spank :=
  { context := .S_CTX_REMOTE, step_alloc_mem := some 4096,
    job_uid := some 1000, job_gid := some 1000,
    job_id := some 100, job_stepid := some 0 }

/-- The spec's failure scenario: job 101, extern-container step,
allocation 512M. -/
def spExtern : Spank :=
  { context := .S_CTX_REMOTE, step_alloc_mem := some 512,
    job_uid := some 1000, job_gid := some 1000,
    job_id := some 101, job_stepid := some SLURM_EXTERN_CONT }

/-- A submission-side (`srun` launch) invocation of the same job. -/
def spLocal : Spank :=
  { context := .S_CTX_LOCAL, step_alloc_mem := some 4096,
    job_uid := some 1000, job_gid := some 1000,
    job_id := some 100, job_stepid := some 0 }

/-- All syscalls succeed. -/
def sysOk : Sys := { mkdir_ok := true, mount_ok := true, umount_ok := true, rmdir_ok := true }

/-- The unmount fails (busy mount). -/
def sysBusy : Sys := { mkdir_ok := true, mount_ok := true, umount_ok := false, rmdir_ok := true }

/-- The directory removal fails after a successful unmount. -/
def sysNoRmdir : Sys := { mkdir_ok := true, mount_ok := true, umount_ok := true, rmdir_ok := false }

/-! ## Correctness of the decimal digit model -/

theorem digitsVal_append (xs : List Char) (c : Char) :
    digitsVal (xs ++ [c]) = digitsVal xs * 10 + (c.toNat - 48) := by
  simp [digitsVal, List.foldl_append]

theorem digitChar_toNat {d : Nat} (h : d < 10) : (digitChar d).toNat = 48 + d := by
  interval_cases d <;> rfl

theorem decDigitsGo_mem_bounds :
    ∀ fuel n, n < fuel → ∀ c ∈ decDigitsGo fuel n, 48 ≤ c.toNat ∧ c.toNat ≤ 57 := by
  intro fuel
  induction fuel with
  | zero => intro n h; omega
  | succ f ih =>
    intro n h c hc
    simp only [decDigitsGo] at hc
    split at hc
    · rcases List.mem_singleton.mp hc with rfl
      have := digitChar_toNat (show n < 10 by omega)
      omega
    · rcases List.mem_append.mp hc with h1 | h1
      · exact ih (n / 10) (by omega) c h1
      · rcases List.mem_singleton.mp h1 with rfl
        have := digitChar_toNat (show n % 10 < 10 by omega)
        omega

theorem decDigitsGo_ne_nil : ∀ fuel n, n < fuel → decDigitsGo fuel n ≠ [] := by
  intro fuel n h
  cases fuel with
  | zero => omega
  | succ f =>
    simp only [decDigitsGo]
    split
    · simp
    · simp

theorem decDigitsGo_val : ∀ fuel n, n < fuel → digitsVal (decDigitsGo fuel n) = n := by
  intro fuel
  induction fuel with
  | zero => intro n h; omega
  | succ f ih =>
    intro n h
    simp only [decDigitsGo]
    split
    · simp only [digitsVal, List.foldl]
      have := digitChar_toNat (show n < 10 by omega)
      omega
    · rw [digitsVal_append, ih (n / 10) (by omega)]
      have := digitChar_toNat (show n % 10 < 10 by omega)
      omega

theorem decDigits_mem_bounds (n : Nat) :
    ∀ c ∈ decDigits n, 48 ≤ c.toNat ∧ c.toNat ≤ 57 :=
  decDigitsGo_mem_bounds (n + 1) n (Nat.lt_succ_self n)

theorem decDigits_ne_nil (n : Nat) : decDigits n ≠ [] :=
  decDigitsGo_ne_nil (n + 1) n (Nat.lt_succ_self n)

theorem decDigits_val (n : Nat) : digitsVal (decDigits n) = n :=
  decDigitsGo_val (n + 1) n (Nat.lt_succ_self n)

/-! ## Character class facts -/

theorem digit_not_space {c : Char} (h : 48 ≤ c.toNat) : isSpaceChar c = false := by
  simp only [isSpaceChar, Bool.or_eq_false_iff, decide_eq_false_iff_not,
    Bool.and_eq_false_iff]
  omega

theorem digit_isDigit {c : Char} (h1 : 48 ≤ c.toNat) (h2 : c.toNat ≤ 57) :
    isDigitChar c = true := by
  simp only [isDigitChar, Bool.and_eq_true, decide_eq_true_eq]
  omega

theorem digit_ne_minus {c : Char} (h : 48 ≤ c.toNat) : c ≠ '-' := by
  intro hc
  subst hc
  exact absurd h (by decide)

theorem digit_ne_plus {c : Char} (h : 48 ≤ c.toNat) : c ≠ '+' := by
  intro hc
  subst hc
  exact absurd h (by decide)

/-! ## takeWhile / dropWhile over an all-satisfying prefix -/

theorem takeWhile_append_all {α : Type} {p : α → Bool} :
    ∀ xs ys : List α, (∀ c ∈ xs, p c = true) →
      List.takeWhile p (xs ++ ys) = xs ++ List.takeWhile p ys := by
  intro xs ys h
  induction xs with
  | nil => simp
  | cons a l ih =>
    rw [List.cons_append, List.takeWhile_cons_of_pos (h a (List.mem_cons_self a l)),
      ih fun c hc => h c (List.mem_cons_of_mem a hc), List.cons_append]

theorem dropWhile_append_all {α : Type} {p : α → Bool} :
    ∀ xs ys : List α, (∀ c ∈ xs, p c = true) →
      List.dropWhile p (xs ++ ys) = List.dropWhile p ys := by
  intro xs ys h
  induction xs with
  | nil => simp
  | cons a l ih =>
    rw [List.cons_append, List.dropWhile_cons_of_pos (h a (List.mem_cons_self a l)),
      ih fun c hc => h c (List.mem_cons_of_mem a hc)]

/-! ## `sscanf` on a decimal digit run -/

theorem sscanf_digit_run (xs suf : List Char) (hne : xs ≠ [])
    (hx : ∀ c ∈ xs, 48 ≤ c.toNat ∧ c.toNat ≤ 57)
    (hsuf : ∀ c, suf.head? = some c → isDigitChar c = false) :
    sscanf_u64_c (xs ++ suf) = some (digitsVal xs % 2 ^ 64, suf.head?) := by
  cases xs with
  | nil => exact absurd rfl hne
  | cons d ds =>
    have hd := hx d (List.mem_cons_self d ds)
    have hds : ∀ c ∈ ds, isDigitChar c = true := fun c hc =>
      digit_isDigit (hx c (List.mem_cons_of_mem d hc)).1 (hx c (List.mem_cons_of_mem d hc)).2
    have h1 : List.dropWhile isSpaceChar ((d :: ds) ++ suf) = d :: (ds ++ suf) := by
      rw [List.cons_append]
      exact List.dropWhile_cons_of_neg (by simp [digit_not_space hd.1])
    have h2 : sscanf_sign (d :: (ds ++ suf)) = (false, d :: (ds ++ suf)) := by
      simp only [sscanf_sign, if_neg (digit_ne_minus hd.1), if_neg (digit_ne_plus hd.1)]
    have h3b : List.takeWhile isDigitChar suf = [] := by
      cases suf with
      | nil => rfl
      | cons c cs => exact List.takeWhile_cons_of_neg (by simp [hsuf c rfl])
    have h3 : List.takeWhile isDigitChar (d :: (ds ++ suf)) = d :: ds := by
      rw [List.takeWhile_cons_of_pos (digit_isDigit hd.1 hd.2),
        takeWhile_append_all ds suf hds, h3b, List.append_nil]
    have h4b : List.dropWhile isDigitChar suf = suf := by
      cases suf with
      | nil => rfl
      | cons c cs => exact List.dropWhile_cons_of_neg (by simp [hsuf c rfl])
    have h4 : List.dropWhile isDigitChar (d :: (ds ++ suf)) = suf := by
      rw [List.dropWhile_cons_of_pos (digit_isDigit hd.1 hd.2),
        dropWhile_append_all ds suf hds, h4b]
    unfold sscanf_u64_c
    rw [h1, h2]
    simp only [h3, h4]
    rw [if_neg (by simp)]
    simp [sscanf_val]

theorem sscanf_decDigits (n : Nat) (suf : List Char)
    (hsuf : ∀ c, suf.head? = some c → isDigitChar c = false) :
    sscanf_u64_c (decDigits n ++ suf) = some (n % 2 ^ 64, suf.head?) := by
  rw [sscanf_digit_run (decDigits n) suf (decDigits_ne_nil n) (decDigits_mem_bounds n) hsuf,
    decDigits_val]

/-! ## Parser-level lemmas -/

theorem parse_dec_plain (n old : Nat) (h1 : 1 ≤ n) (h64 : n < 2 ^ 64) :
    parse_ramdisk_size ⟨decDigits n⟩ old = (.ok (), n) := by
  unfold parse_ramdisk_size
  have h : sscanf_u64_c (String.toList ⟨decDigits n⟩) = some (n % 2 ^ 64, none) := by
    have := sscanf_decDigits n [] (by intro c hc; cases hc)
    rwa [List.append_nil] at this
  rw [h, Nat.mod_eq_of_lt h64]
  simp only [if_neg (by omega : ¬ n = 0)]

theorem parse_dec_unit (n old : Nat) (h64 : n < 2 ^ 64) (c : Char)
    (hc : isDigitChar c = false) :
    parse_ramdisk_size ⟨decDigits n ++ [c]⟩ old =
      (if c = 'G' then
        if n * 1024 % 2 ^ 64 = 0 then (.error .zeroSize, n * 1024 % 2 ^ 64)
        else (.ok (), n * 1024 % 2 ^ 64)
      else if c = 'M' then
        if n = 0 then (.error .zeroSize, n) else (.ok (), n)
      else (.error .invalidUnit, n)) := by
  unfold parse_ramdisk_size
  have h : sscanf_u64_c (String.toList ⟨decDigits n ++ [c]⟩) = some (n % 2 ^ 64, some c) := by
    exact sscanf_decDigits n [c] (by intro x hx; cases hx; exact hc)
  rw [h, Nat.mod_eq_of_lt h64]

/-! ## Filesystem lookup lemmas -/

theorem lookup_fsErase_self (p : String) (fs : Fs) : (fsErase p fs).lookup p = none := by
  induction fs with
  | nil => rfl
  | cons q t ih =>
    obtain ⟨k, e⟩ := q
    simp only [fsErase, List.filter_cons] at ih ⊢
    by_cases hk : k = p
    · rw [if_neg (by simp [hk])]
      exact ih
    · rw [if_pos (by simp [hk]), List.lookup_cons]
      have hbeq : (p == k) = false := by
        simp [Ne.symm hk]
      rw [hbeq]
      exact ih

theorem lookup_fsSet_self (p : String) (e : FsEntry) (fs : Fs) :
    (fsSet p e fs).lookup p = some e := by
  simp [fsSet, List.lookup_cons]

/-! ## Unfolding lemmas for the two hooks -/

theorem provision_eq (sp : Spank) (sys : Sys) (n : Nat) (fs : Fs)
    (hctx : sp.context = .S_CTX_REMOTE) (hn : n ≠ 0) (a : Nat)
    (ha : sp.step_alloc_mem = some a) (hlt : ¬ a ≤ n) (d : String)
    (hd : get_directory sp = .ok d) (u : Nat) (hu : sp.job_uid = some u) :
    slurm_spank_init_post_opt sp sys n fs =
      match fs.lookup d with
      | some (.dir _) => ⟨.ok (), fs, some d⟩
      | some .nondir => ⟨.error .pathConflict, fs, some d⟩
      | none =>
        if sys.mkdir_ok = false then ⟨.error .mkdirFailed, fs, some d⟩
        else if sys.mount_ok = false then
          ⟨.error .mountFailed, fsSet d (.dir none) fs, some d⟩
        else
          ⟨.ok (), fsSet d (.dir (some (mount_options n u sp.job_gid))) fs, some d⟩ := by
  unfold slurm_spank_init_post_opt
  rw [hctx, ha, hd, hu]
  simp only [ne_eq, not_true_eq_false, if_false, if_neg hn, if_neg hlt]

theorem teardown_eq (sp : Spank) (sys : Sys) (n : Nat) (fs : Fs)
    (hctx : sp.context = .S_CTX_REMOTE) (hn : n ≠ 0) (d : String)
    (hd : get_directory sp = .ok d) :
    slurm_spank_exit sp sys n fs =
      match fs.lookup d with
      | none => ⟨.ok (), fs, 0⟩
      | some (.dir (some _)) =>
        if sys.umount_ok = false then ⟨.error .umountFailed, fs, 1⟩
        else if sys.rmdir_ok = false then ⟨.ok (), fsSet d (.dir none) fs, 0⟩
        else ⟨.ok (), fsErase d fs, 0⟩
      | some _ => ⟨.error .umountFailed, fs, 1⟩ := by
  unfold slurm_spank_exit
  rw [hctx, hd]
  simp only [ne_eq, not_true_eq_false, if_false, if_neg hn]

theorem provision_not_remote (sp : Spank) (sys : Sys) (n : Nat) (fs : Fs)
    (h : sp.context ≠ .S_CTX_REMOTE) :
    slurm_spank_init_post_opt sp sys n fs = ⟨.ok (), fs, none⟩ := by
  unfold slurm_spank_init_post_opt
  rw [if_pos h]

theorem provision_zero (sp : Spank) (sys : Sys) (fs : Fs) :
    slurm_spank_init_post_opt sp sys 0 fs = ⟨.ok (), fs, none⟩ := by
  unfold slurm_spank_init_post_opt
  by_cases h : sp.context ≠ .S_CTX_REMOTE
  · rw [if_pos h]
  · rw [if_neg h, if_pos rfl]

theorem teardown_not_remote (sp : Spank) (sys : Sys) (n : Nat) (fs : Fs)
    (h : sp.context ≠ .S_CTX_REMOTE) :
    slurm_spank_exit sp sys n fs = ⟨.ok (), fs, 0⟩ := by
  unfold slurm_spank_exit
  rw [if_pos h]

theorem teardown_zero (sp : Spank) (sys : Sys) (fs : Fs) :
    slurm_spank_exit sp sys 0 fs = ⟨.ok (), fs, 0⟩ := by
  unfold slurm_spank_exit
  by_cases h : sp.context ≠ .S_CTX_REMOTE
  · rw [if_pos h]
  · rw [if_neg h, if_pos rfl]

theorem provision_alloc_none (sp : Spank) (sys : Sys) (n : Nat) (fs : Fs)
    (hctx : sp.context = .S_CTX_REMOTE) (hn : n ≠ 0)
    (ha : sp.step_alloc_mem = none) :
    slurm_spank_init_post_opt sp sys n fs = ⟨.error .allocUnavailable, fs, none⟩ := by
  unfold slurm_spank_init_post_opt
  rw [hctx, ha]
  simp only [ne_eq, not_true_eq_false, if_false, if_neg hn]

theorem provision_capacity (sp : Spank) (sys : Sys) (n : Nat) (fs : Fs)
    (hctx : sp.context = .S_CTX_REMOTE) (hn : n ≠ 0) (a : Nat)
    (ha : sp.step_alloc_mem = some a) (hle : a ≤ n) :
    slurm_spank_init_post_opt sp sys n fs =
      ⟨.error .capacityExceedsAllocation, fs, none⟩ := by
  unfold slurm_spank_init_post_opt
  rw [hctx, ha]
  simp only [ne_eq, not_true_eq_false, if_false, if_neg hn, if_pos hle]

theorem provision_resolve_err (sp : Spank) (sys : Sys) (n : Nat) (fs : Fs)
    (hctx : sp.context = .S_CTX_REMOTE) (hn : n ≠ 0) (a : Nat)
    (ha : sp.step_alloc_mem = some a) (hlt : ¬ a ≤ n) (e : DirErr)
    (hd : get_directory sp = .error e) :
    slurm_spank_init_post_opt sp sys n fs = ⟨.error (.resolveFailed e), fs, none⟩ := by
  unfold slurm_spank_init_post_opt
  rw [hctx, ha, hd]
  simp only [ne_eq, not_true_eq_false, if_false, if_neg hn, if_neg hlt]

theorem provision_uid_none (sp : Spank) (sys : Sys) (n : Nat) (fs : Fs)
    (hctx : sp.context = .S_CTX_REMOTE) (hn : n ≠ 0) (a : Nat)
    (ha : sp.step_alloc_mem = some a) (hlt : ¬ a ≤ n) (d : String)
    (hd : get_directory sp = .ok d) (hu : sp.job_uid = none) :
    slurm_spank_init_post_opt sp sys n fs = ⟨.error .uidUnavailable, fs, some d⟩ := by
  unfold slurm_spank_init_post_opt
  rw [hctx, ha, hd, hu]
  simp only [ne_eq, not_true_eq_false, if_false, if_neg hn, if_neg hlt]

theorem teardown_resolve_err (sp : Spank) (sys : Sys) (n : Nat) (fs : Fs)
    (hctx : sp.context = .S_CTX_REMOTE) (hn : n ≠ 0) (e : DirErr)
    (hd : get_directory sp = .error e) :
    slurm_spank_exit sp sys n fs = ⟨.error (.resolveFailed e), fs, 0⟩ := by
  unfold slurm_spank_exit
  rw [hctx, hd]
  simp only [ne_eq, not_true_eq_false, if_false, if_neg hn]

theorem provision_ret_ne_capacity (sp : Spank) (sys : Sys) (n : Nat) (fs : Fs)
    (hctx : sp.context = .S_CTX_REMOTE) (hn : n ≠ 0) (a : Nat)
    (ha : sp.step_alloc_mem = some a) (hlt : ¬ a ≤ n) :
    (slurm_spank_init_post_opt sp sys n fs).ret ≠ .error .capacityExceedsAllocation := by
  cases hd : get_directory sp with
  | error e =>
    rw [provision_resolve_err sp sys n fs hctx hn a ha hlt e hd]
    simp
  | ok d =>
    cases hu : sp.job_uid with
    | none =>
      rw [provision_uid_none sp sys n fs hctx hn a ha hlt d hd hu]
      simp
    | some u =>
      rw [provision_eq sp sys n fs hctx hn a ha hlt d hd u hu]
      cases hl : fs.lookup d with
      | none =>
        by_cases hmk : sys.mkdir_ok = false
        · rw [if_pos hmk]; simp
        · rw [if_neg hmk]
          by_cases hmt : sys.mount_ok = false
          · rw [if_pos hmt]; simp
          · rw [if_neg hmt]; simp
      | some e =>
        cases e with
        | dir m => simp
        | nondir => simp

theorem parse_ok_nonzero (s : String) (old : Nat)
    (h : (parse_ramdisk_size s old).1 = .ok ()) : (parse_ramdisk_size s old).2 ≠ 0 := by
  revert h
  unfold parse_ramdisk_size
  cases hs : sscanf_u64_c s.toList with
  | none => intro h; exact absurd h (by simp)
  | some p =>
    obtain ⟨n, sel⟩ := p
    cases sel with
    | none => by_cases hn : n = 0 <;> simp [hn]
    | some u =>
      intro h
      dsimp only at h ⊢
      split_ifs at h ⊢ <;> simp_all

/-! ## Claim C7: decimal size parsing -/

/-- **C7** (amended): for every integer `1 ≤ N < 2 ^ 64`, parsing the decimal
strings `"N"` and `"NM"` succeeds and stores capacity `N` megabytes; when
moreover `N * 1024 < 2 ^ 64`, parsing `"NG"` succeeds and stores
`1024 * N` megabytes.  The bounds are forced by the 64-bit arithmetic of the
global `ramdisk_size`. -/
theorem parse_decimal_sizes (n old : Nat) (h1 : 1 ≤ n) (h64 : n < 2 ^ 64) :
    parse_ramdisk_size ⟨decDigits n⟩ old = (.ok (), n)
    ∧ parse_ramdisk_size ⟨decDigits n ++ ['M']⟩ old = (.ok (), n)
    ∧ (n * 1024 < 2 ^ 64 →
        parse_ramdisk_size ⟨decDigits n ++ ['G']⟩ old = (.ok (), 1024 * n)) := by
  refine ⟨parse_dec_plain n old h1 h64, ?_, ?_⟩
  · rw [parse_dec_unit n old h64 'M' (by decide)]
    rw [if_neg (by decide : ¬ ('M' = 'G')), if_pos rfl, if_neg (by omega : ¬ n = 0)]
  · intro hg
    rw [parse_dec_unit n old h64 'G' (by decide), if_pos rfl,
      if_neg (by rw [Nat.mod_eq_of_lt hg]; omega), Nat.mod_eq_of_lt hg, Nat.mul_comm]

/-- **C7** counterexample: the unamended claim quantifies over every
`N ≥ 1`; at `N = 2 ^ 54` (decimal `18014398509481984`) the multiplication
`ramdisk_size *= 1024` overflows the `uint64_t` to `0`, so parsing `"NG"`
fails with the zero-size error instead of yielding capacity `1024 * N`. -/
theorem parse_gigabytes_overflow :
    (18014398509481984 : Nat) = 2 ^ 54
    ∧ u32_dec 18014398509481984 = "18014398509481984"
    ∧ parse_ramdisk_size "18014398509481984G" 7 = (.error .zeroSize, 0) := by
  refine ⟨by norm_num, by decide, by decide⟩

/-- Witness for C7 at `N = 2`: parsing `"2"`, `"2M"`, `"2G"`. -/
theorem parse_decimal_sizes_witness :
    parse_ramdisk_size "2" 7 = (.ok (), 2)
    ∧ parse_ramdisk_size "2M" 7 = (.ok (), 2)
    ∧ parse_ramdisk_size "2G" 7 = (.ok (), 2048) := by
  have h := parse_decimal_sizes 2 7 (by decide) (by decide)
  have e1 : ("2" : String) = ⟨decDigits 2⟩ := by decide
  have e2 : ("2M" : String) = ⟨decDigits 2 ++ ['M']⟩ := by decide
  have e3 : ("2G" : String) = ⟨decDigits 2 ++ ['G']⟩ := by decide
  refine ⟨?_, ?_, ?_⟩
  · rw [e1]; exact h.1
  · rw [e2]; exact h.2.1
  · rw [e3]; exact h.2.2 (by decide)

/-! ## Claim C2: parser rejections -/

/-- **C2** counterexample: the claim states that `"5MM"` (more than one
trailing character) fails to parse; in the code `sscanf("%llu%c")` simply
ignores everything after the first trailing character, so `"5MM"` parses
successfully with capacity 5 megabytes. -/
theorem parse_extra_trailing_accepted :
    parse_ramdisk_size "5MM" 7 = (.ok (), 5) := by decide

/-- **C2** (amended): the size parser rejects every input whose FIRST
trailing character is not exactly the megabyte or gigabyte marker, whose
numeric token is missing, or whose parsed value is zero — `"0"`, `"0M"`,
`"5K"`, `"abc"` all fail — but characters after the first trailing character
are ignored, so `"5MM"` parses successfully as 5 megabytes; a successful
parse never stores capacity 0. -/
theorem size_parser_rejections :
    (∀ n old : Nat, ∀ c : Char, n < 2 ^ 64 → isDigitChar c = false →
      c ≠ 'M' → c ≠ 'G' →
      (parse_ramdisk_size ⟨decDigits n ++ [c]⟩ old).1 = .error .invalidUnit)
    ∧ (parse_ramdisk_size "0" 7).1 = .error .zeroSize
    ∧ (parse_ramdisk_size "0M" 7).1 = .error .zeroSize
    ∧ (parse_ramdisk_size "5K" 7).1 = .error .invalidUnit
    ∧ (parse_ramdisk_size "abc" 7).1 = .error .invalidFormat
    ∧ (parse_ramdisk_size "5MM" 7).1 = .ok ()
    ∧ (∀ s : String, ∀ old : Nat, (parse_ramdisk_size s old).1 = .ok () →
        (parse_ramdisk_size s old).2 ≠ 0) := by
  refine ⟨?_, by decide, by decide, by decide, by decide, by decide, parse_ok_nonzero⟩
  intro n old c h64 hc hM hG
  rw [parse_dec_unit n old h64 c hc, if_neg hG, if_neg hM]

/-- Witness for C2: an invalid unit character `'X'` after `3`, and a
successful parse of `"8"` storing a non-zero capacity. -/
theorem size_parser_rejections_witness :
    (parse_ramdisk_size ⟨decDigits 3 ++ ['X']⟩ 7).1 = .error .invalidUnit
    ∧ (parse_ramdisk_size "8" 7).2 ≠ 0 :=
  ⟨size_parser_rejections.1 3 7 'X' (by decide) (by decide) (by decide) (by decide),
   size_parser_rejections.2.2.2.2.2.2 "8" 7 (by decide)⟩

/-! ## Claim C10: the global is clobbered on an invalid unit -/

/-- **C10**: the size parser is not atomic on error: for any input
`"<N><c>"` with `N ≥ 1` in range and `c` an invalid unit character, the
parse fails with the invalid-unit error but the process-wide `ramdisk_size`
global has already been overwritten with `N` by `sscanf`, replacing whatever
value (`old`) it held before the call. -/
theorem parser_global_clobbered (n old : Nat) (_h1 : 1 ≤ n) (h64 : n < 2 ^ 64)
    (c : Char) (hc : isDigitChar c = false) (hM : c ≠ 'M') (hG : c ≠ 'G') :
    parse_ramdisk_size ⟨decDigits n ++ [c]⟩ old = (.error .invalidUnit, n) := by
  rw [parse_dec_unit n old h64 c hc, if_neg hG, if_neg hM]

/-- Witness for C10: parsing `"5K"` with previous global value 7 fails but
leaves the global at 5. -/
theorem parser_global_clobbered_witness :
    parse_ramdisk_size "5K" 7 = (.error .invalidUnit, 5) := by
  have h := parser_global_clobbered 5 7 (by decide) (by decide) 'K'
    (by decide) (by decide) (by decide)
  have e : ("5K" : String) = ⟨decDigits 5 ++ ['K']⟩ := by decide
  rw [e]; exact h

/-! ## Claim C3: path resolution -/

/-- **C3**: path resolution is a deterministic pure function of the
(job id, step id) identity: a normal step id `S ≤ SLURM_MAX_NORMAL_STEP_ID`
yields `/ramdisks/J.S.ramdisk`; the extern-container, batch-script and
interactive sentinels yield the `.extern` / `.batch` / `.interactive`
suffixes; the pending sentinel yields an error; every other out-of-range
step id yields an error. -/
theorem path_resolution (J : Nat) :
    (∀ S, S ≤ SLURM_MAX_NORMAL_STEP_ID →
      resolve_directory J S =
        .ok ("/ramdisks/" ++ u32_dec J ++ "." ++ u32_dec S ++ ".ramdisk"))
    ∧ resolve_directory J SLURM_EXTERN_CONT =
        .ok ("/ramdisks/" ++ u32_dec J ++ ".extern.ramdisk")
    ∧ resolve_directory J SLURM_BATCH_SCRIPT =
        .ok ("/ramdisks/" ++ u32_dec J ++ ".batch.ramdisk")
    ∧ resolve_directory J SLURM_INTERACTIVE_STEP =
        .ok ("/ramdisks/" ++ u32_dec J ++ ".interactive.ramdisk")
    ∧ resolve_directory J SLURM_PENDING_STEP = .error .pendingStep
    ∧ (∀ S, SLURM_MAX_NORMAL_STEP_ID < S → S < 2 ^ 32 →
        S ≠ SLURM_PENDING_STEP → S ≠ SLURM_EXTERN_CONT →
        S ≠ SLURM_BATCH_SCRIPT → S ≠ SLURM_INTERACTIVE_STEP →
        resolve_directory J S = .error .invalidStepId) := by
  refine ⟨?_, ?_, ?_, ?_, ?_, ?_⟩
  · intro S hS
    unfold resolve_directory
    rw [if_neg (not_lt.mpr hS)]
  · unfold resolve_directory
    rw [if_pos (by decide), if_neg (by decide), if_pos rfl]
  · unfold resolve_directory
    rw [if_pos (by decide), if_neg (by decide), if_neg (by decide), if_pos rfl]
  · unfold resolve_directory
    rw [if_pos (by decide), if_neg (by decide), if_neg (by decide),
      if_neg (by decide), if_pos rfl]
  · unfold resolve_directory
    rw [if_pos (by decide), if_pos rfl]
  · intro S h1 _h2 hp he hb hi
    unfold resolve_directory
    rw [if_pos h1, if_neg hp, if_neg he, if_neg hb, if_neg hi]

/-- Witness for C3 at job 42: step 3, the three sentinels, pending, and an
out-of-range step id `0xfffffff5`. -/
theorem path_resolution_witness :
    resolve_directory 42 3 = .ok "/ramdisks/42.3.ramdisk"
    ∧ resolve_directory 42 SLURM_EXTERN_CONT = .ok "/ramdisks/42.extern.ramdisk"
    ∧ resolve_directory 42 SLURM_BATCH_SCRIPT = .ok "/ramdisks/42.batch.ramdisk"
    ∧ resolve_directory 42 SLURM_INTERACTIVE_STEP =
        .ok "/ramdisks/42.interactive.ramdisk"
    ∧ resolve_directory 42 SLURM_PENDING_STEP = .error .pendingStep
    ∧ resolve_directory 42 4294967285 = .error .invalidStepId := by
  have h := path_resolution 42
  refine ⟨?_, ?_, ?_, ?_, h.2.2.2.2.1,
    h.2.2.2.2.2 4294967285 (by decide) (by decide) (by decide) (by decide)
      (by decide) (by decide)⟩
  · rw [h.1 3 (by decide)]; decide
  · rw [h.2.1]; decide
  · rw [h.2.2.1]; decide
  · rw [h.2.2.2.1]; decide

/-! ## Claim C1: the capacity-vs-allocation gate -/

/-- **C1**: on the compute node with a requested size `n ≠ 0` and a known
allocation `a`, Provision fails with the capacity-exceeds-allocation error
exactly when `n ≥ a`; in that case it fails before any filesystem mutation
(the filesystem is returned untouched and nothing was exported); and a
request of `a - 1` (for `a ≥ 2`) gets past this check. -/
theorem capacity_check (sp : Spank) (sys : Sys) (n : Nat) (fs : Fs)
    (hctx : sp.context = .S_CTX_REMOTE) (hn : n ≠ 0) (a : Nat)
    (ha : sp.step_alloc_mem = some a) :
    ((slurm_spank_init_post_opt sp sys n fs).ret =
        .error .capacityExceedsAllocation ↔ a ≤ n)
    ∧ (a ≤ n → slurm_spank_init_post_opt sp sys n fs =
        ⟨.error .capacityExceedsAllocation, fs, none⟩)
    ∧ (2 ≤ a → (slurm_spank_init_post_opt sp sys (a - 1) fs).ret ≠
        .error .capacityExceedsAllocation) := by
  refine ⟨⟨?_, ?_⟩, ?_, ?_⟩
  · intro h
    by_contra hlt
    exact provision_ret_ne_capacity sp sys n fs hctx hn a ha hlt h
  · intro hle
    rw [provision_capacity sp sys n fs hctx hn a ha hle]
  · intro hle
    rw [provision_capacity sp sys n fs hctx hn a ha hle]
  · intro h2
    exact provision_ret_ne_capacity sp sys (a - 1) fs hctx
      (by omega) a ha (by omega)

/-- Witness for C1: the spec's failure scenario — job 101, extern-container
step, allocation 512M, requested 1024M — fails with the capacity error and
touches nothing; 511M gets past the check. -/
theorem capacity_check_witness :
    ((slurm_spank_init_post_opt spExtern sysOk 1024 []).ret =
        .error .capacityExceedsAllocation ↔ 512 ≤ 1024)
    ∧ (512 ≤ 1024 → slurm_spank_init_post_opt spExtern sysOk 1024 [] =
        ⟨.error .capacityExceedsAllocation, [], none⟩)
    ∧ (2 ≤ 512 → (slurm_spank_init_post_opt spExtern sysOk 511 []).ret ≠
        .error .capacityExceedsAllocation) := by
  have h := capacity_check spExtern sysOk 1024 [] rfl (by decide) 512 rfl
  exact ⟨h.1, h.2.1, h.2.2⟩

/-! ## Claim C6: non-remote and no-request invocations are no-ops -/

/-- **C6**: both Provision and Teardown return success and leave the
filesystem untouched (no export, no drain) whenever the execution context is
not the remote/compute one, and likewise whenever the stored capacity is the
sentinel 0 (no ramdisk requested). -/
theorem non_remote_or_unrequested_noop (sp : Spank) (sys : Sys) (n : Nat) (fs : Fs) :
    (sp.context ≠ .S_CTX_REMOTE →
      slurm_spank_init_post_opt sp sys n fs = ⟨.ok (), fs, none⟩
      ∧ slurm_spank_exit sp sys n fs = ⟨.ok (), fs, 0⟩)
    ∧ (n = 0 →
      slurm_spank_init_post_opt sp sys n fs = ⟨.ok (), fs, none⟩
      ∧ slurm_spank_exit sp sys n fs = ⟨.ok (), fs, 0⟩) := by
  constructor
  · intro h
    exact ⟨provision_not_remote sp sys n fs h, teardown_not_remote sp sys n fs h⟩
  · intro h
    subst h
    exact ⟨provision_zero sp sys fs, teardown_zero sp sys fs⟩

/-- Witness for C6: a submission-side (`local` context) invocation with a
requested ramdisk, and a remote invocation with no ramdisk requested, both
on a filesystem with an unrelated entry. -/
theorem non_remote_or_unrequested_noop_witness :
    (slurm_spank_init_post_opt spLocal sysOk 2048 [("/ramdisks/x", .dir none)] =
        ⟨.ok (), [("/ramdisks/x", .dir none)], none⟩
      ∧ slurm_spank_exit spLocal sysOk 2048 [("/ramdisks/x", .dir none)] =
        ⟨.ok (), [("/ramdisks/x", .dir none)], 0⟩)
    ∧ (slurm_spank_init_post_opt spHappy sysOk 0 [("/ramdisks/x", .dir none)] =
        ⟨.ok (), [("/ramdisks/x", .dir none)], none⟩
      ∧ slurm_spank_exit spHappy sysOk 0 [("/ramdisks/x", .dir none)] =
        ⟨.ok (), [("/ramdisks/x", .dir none)], 0⟩) :=
  ⟨(non_remote_or_unrequested_noop spLocal sysOk 2048 _).1 (by decide),
   (non_remote_or_unrequested_noop spHappy sysOk 0 _).2 rfl⟩

/-! ## Claim C5: unmount failure drains the node -/

/-- **C5**: when the path exists and the unmount attempt fails, Teardown
returns failure, issues exactly one node-drain escalation request, and
leaves the directory in place (the filesystem is unchanged — no removal is
attempted). -/
theorem umount_failure_drains_once (sp : Spank) (sys : Sys) (n : Nat) (fs : Fs)
    (hctx : sp.context = .S_CTX_REMOTE) (hn : n ≠ 0) (d : String)
    (hd : get_directory sp = .ok d) (e : FsEntry) (hfs : fs.lookup d = some e)
    (hum : sys.umount_ok = false) :
    slurm_spank_exit sp sys n fs = ⟨.error .umountFailed, fs, 1⟩ := by
  rw [teardown_eq sp sys n fs hctx hn d hd, hfs]
  cases e with
  | nondir => rfl
  | dir m =>
    cases m with
    | none => rfl
    | some _ => rw [if_pos hum]

/-- Witness for C5: the spec's unmount-failure scenario — job 100 step 0
with a busy mount: Teardown fails, drains exactly once, the directory (and
its mount) are left in place. -/
theorem umount_failure_drains_once_witness :
    slurm_spank_exit spHappy sysBusy 2048
        [("/ramdisks/100.0.ramdisk", .dir (some "opts"))] =
      ⟨.error .umountFailed, [("/ramdisks/100.0.ramdisk", .dir (some "opts"))], 1⟩ :=
  umount_failure_drains_once spHappy sysBusy 2048 _ rfl (by decide)
    "/ramdisks/100.0.ramdisk" (by decide) (.dir (some "opts")) (by decide) rfl

/-! ## Claim C8: non-directory conflict at the mount path -/

/-- **C8**: if the resolved mount path exists but is not a directory,
Provision fails with the path-conflict error and performs no filesystem
mutation (the entry is neither removed nor mounted over). -/
theorem path_conflict_no_mutation (sp : Spank) (sys : Sys) (n : Nat) (fs : Fs)
    (hctx : sp.context = .S_CTX_REMOTE) (hn : n ≠ 0) (a : Nat)
    (ha : sp.step_alloc_mem = some a) (hlt : ¬ a ≤ n) (d : String)
    (hd : get_directory sp = .ok d) (u : Nat) (hu : sp.job_uid = some u)
    (hfs : fs.lookup d = some .nondir) :
    slurm_spank_init_post_opt sp sys n fs = ⟨.error .pathConflict, fs, some d⟩ := by
  rw [provision_eq sp sys n fs hctx hn a ha hlt d hd u hu, hfs]

/-- Witness for C8: a stray non-directory file at `/ramdisks/100.0.ramdisk`
makes Provision fail and leaves the filesystem untouched. -/
theorem path_conflict_no_mutation_witness :
    slurm_spank_init_post_opt spHappy sysOk 2048
        [("/ramdisks/100.0.ramdisk", .nondir)] =
      ⟨.error .pathConflict, [("/ramdisks/100.0.ramdisk", .nondir)],
        some "/ramdisks/100.0.ramdisk"⟩ :=
  path_conflict_no_mutation spHappy sysOk 2048 _ rfl (by decide) 4096 rfl
    (by decide) "/ramdisks/100.0.ramdisk" (by decide) 1000 rfl (by decide)

/-! ## Claim C9: rmdir failure after a successful unmount is non-fatal -/

/-- **C9**: after a successful unmount, a failure to remove the now-empty
directory only logs: Teardown still returns success, no drain escalation is
issued, and the (now unmounted) directory remains present. -/
theorem rmdir_failure_nonfatal (sp : Spank) (sys : Sys) (n : Nat) (fs : Fs)
    (hctx : sp.context = .S_CTX_REMOTE) (hn : n ≠ 0) (d : String)
    (hd : get_directory sp = .ok d) (opts : String)
    (hfs : fs.lookup d = some (.dir (some opts))) (hum : sys.umount_ok = true)
    (hrm : sys.rmdir_ok = false) :
    slurm_spank_exit sp sys n fs = ⟨.ok (), fsSet d (.dir none) fs, 0⟩
    ∧ (fsSet d (.dir none) fs).lookup d = some (.dir none) := by
  constructor
  · rw [teardown_eq sp sys n fs hctx hn d hd, hfs,
      if_neg (by simp [hum]), if_pos hrm]
  · exact lookup_fsSet_self d _ fs

/-- Witness for C9: unmount succeeds, rmdir fails — Teardown succeeds with
no drain and the empty directory is still there. -/
theorem rmdir_failure_nonfatal_witness :
    slurm_spank_exit spHappy sysNoRmdir 2048
        [("/ramdisks/100.0.ramdisk", .dir (some "opts"))] =
      ⟨.ok (), fsSet "/ramdisks/100.0.ramdisk" (.dir none)
          [("/ramdisks/100.0.ramdisk", .dir (some "opts"))], 0⟩
    ∧ (fsSet "/ramdisks/100.0.ramdisk" (.dir none)
          [("/ramdisks/100.0.ramdisk", .dir (some "opts"))]).lookup
        "/ramdisks/100.0.ramdisk" = some (.dir none) :=
  rmdir_failure_nonfatal spHappy sysNoRmdir 2048 _ rfl (by decide)
    "/ramdisks/100.0.ramdisk" (by decide) "opts" (by decide) rfl rfl

/-! ## Claim C4: repeat-invocation idempotence -/

/-- **C4**: Provision and Teardown are repeat-invocation idempotent: after
any successful Provision, a second Provision with the same identity and
inputs finds the directory already present and returns success leaving the
filesystem untouched (no second mount); after any successful Teardown whose
directory removal succeeded, a second Teardown finds the path absent and
returns success (no drain, no change). -/
theorem repeat_invocation_idempotent (sp : Spank) (sys : Sys) (n : Nat) (fs : Fs) :
    ((slurm_spank_init_post_opt sp sys n fs).ret = .ok () →
      slurm_spank_init_post_opt sp sys n (slurm_spank_init_post_opt sp sys n fs).fs =
        ⟨.ok (), (slurm_spank_init_post_opt sp sys n fs).fs,
          (slurm_spank_init_post_opt sp sys n fs).exported⟩)
    ∧ ((slurm_spank_exit sp sys n fs).ret = .ok () → sys.rmdir_ok = true →
      slurm_spank_exit sp sys n (slurm_spank_exit sp sys n fs).fs =
        ⟨.ok (), (slurm_spank_exit sp sys n fs).fs, 0⟩) := by
  constructor
  · intro h
    by_cases hctx : sp.context = .S_CTX_REMOTE
    · by_cases hn : n = 0
      · subst hn
        rw [provision_zero sp sys fs]
        exact provision_zero sp sys fs
      · cases ha : sp.step_alloc_mem with
        | none =>
          rw [provision_alloc_none sp sys n fs hctx hn ha] at h
          exact absurd h (by simp)
        | some a =>
          by_cases hle : a ≤ n
          · rw [provision_capacity sp sys n fs hctx hn a ha hle] at h
            exact absurd h (by simp)
          · cases hd : get_directory sp with
            | error e =>
              rw [provision_resolve_err sp sys n fs hctx hn a ha hle e hd] at h
              exact absurd h (by simp)
            | ok d =>
              cases hu : sp.job_uid with
              | none =>
                rw [provision_uid_none sp sys n fs hctx hn a ha hle d hd hu] at h
                exact absurd h (by simp)
              | some u =>
                have hp := provision_eq sp sys n fs hctx hn a ha hle d hd u hu
                cases hl : fs.lookup d with
                | some e =>
                  cases e with
                  | dir m =>
                    have hP : slurm_spank_init_post_opt sp sys n fs =
                        ⟨.ok (), fs, some d⟩ := by rw [hp, hl]
                    rw [hP]
                    exact hP
                  | nondir =>
                    have hP : slurm_spank_init_post_opt sp sys n fs =
                        ⟨.error .pathConflict, fs, some d⟩ := by rw [hp, hl]
                    rw [hP] at h
                    exact absurd h (by simp)
                | none =>
                  by_cases hmk : sys.mkdir_ok = false
                  · have hP : slurm_spank_init_post_opt sp sys n fs =
                        ⟨.error .mkdirFailed, fs, some d⟩ := by
                      rw [hp, hl, if_pos hmk]
                    rw [hP] at h
                    exact absurd h (by simp)
                  · by_cases hmt : sys.mount_ok = false
                    · have hP : slurm_spank_init_post_opt sp sys n fs =
                          ⟨.error .mountFailed, fsSet d (.dir none) fs, some d⟩ := by
                        rw [hp, hl, if_neg hmk, if_pos hmt]
                      rw [hP] at h
                      exact absurd h (by simp)
                    · have hP : slurm_spank_init_post_opt sp sys n fs =
                          ⟨.ok (),
                            fsSet d (.dir (some (mount_options n u sp.job_gid))) fs,
                            some d⟩ := by
                        rw [hp, hl, if_neg hmk, if_neg hmt]
                      rw [hP]
                      dsimp only
                      rw [provision_eq sp sys n
                          (fsSet d (.dir (some (mount_options n u sp.job_gid))) fs)
                          hctx hn a ha hle d hd u hu,
                        lookup_fsSet_self]
    · rw [provision_not_remote sp sys n fs hctx]
      exact provision_not_remote sp sys n fs hctx
  · intro h hrm
    by_cases hctx : sp.context = .S_CTX_REMOTE
    · by_cases hn : n = 0
      · subst hn
        rw [teardown_zero sp sys fs]
        exact teardown_zero sp sys fs
      · cases hd : get_directory sp with
        | error e =>
          rw [teardown_resolve_err sp sys n fs hctx hn e hd] at h
          exact absurd h (by simp)
        | ok d =>
          have ht := teardown_eq sp sys n fs hctx hn d hd
          cases hl : fs.lookup d with
          | none =>
            have hT : slurm_spank_exit sp sys n fs = ⟨.ok (), fs, 0⟩ := by
              rw [ht, hl]
            rw [hT]
            exact hT
          | some e =>
            cases e with
            | nondir =>
              have hT : slurm_spank_exit sp sys n fs =
                  ⟨.error .umountFailed, fs, 1⟩ := by rw [ht, hl]
              rw [hT] at h
              exact absurd h (by simp)
            | dir m =>
              cases m with
              | none =>
                have hT : slurm_spank_exit sp sys n fs =
                    ⟨.error .umountFailed, fs, 1⟩ := by rw [ht, hl]
                rw [hT] at h
                exact absurd h (by simp)
              | some opts =>
                by_cases hum : sys.umount_ok = false
                · have hT : slurm_spank_exit sp sys n fs =
                      ⟨.error .umountFailed, fs, 1⟩ := by
                    rw [ht, hl, if_pos hum]
                  rw [hT] at h
                  exact absurd h (by simp)
                · have hT : slurm_spank_exit sp sys n fs =
                      ⟨.ok (), fsErase d fs, 0⟩ := by
                    rw [ht, hl, if_neg hum, if_neg (by simp [hrm])]
                  rw [hT]
                  dsimp only
                  rw [teardown_eq sp sys n (fsErase d fs) hctx hn d hd,
                    lookup_fsErase_self]
    · rw [teardown_not_remote sp sys n fs hctx]
      exact teardown_not_remote sp sys n fs hctx

/-- Witness for C4: job 100, step 0, allocation 4096M, size 2048M — a second
Provision after a successful one is a success no-op, and a second Teardown
after a successful one (which unmounted and removed the directory) is a
success no-op. -/
theorem repeat_invocation_idempotent_witness :
    slurm_spank_init_post_opt spHappy sysOk 2048
        (slurm_spank_init_post_opt spHappy sysOk 2048 []).fs =
      ⟨.ok (), (slurm_spank_init_post_opt spHappy sysOk 2048 []).fs,
        (slurm_spank_init_post_opt spHappy sysOk 2048 []).exported⟩
    ∧ slurm_spank_exit spHappy sysOk 2048
        (slurm_spank_exit spHappy sysOk 2048
          [("/ramdisks/100.0.ramdisk", .dir (some "opts"))]).fs =
      ⟨.ok (), (slurm_spank_exit spHappy sysOk 2048
          [("/ramdisks/100.0.ramdisk", .dir (some "opts"))]).fs, 0⟩ :=
  ⟨(repeat_invocation_idempotent spHappy sysOk 2048 []).1 (by decide),
   (repeat_invocation_idempotent spHappy sysOk 2048
      [("/ramdisks/100.0.ramdisk", .dir (some "opts"))]).2 (by decide) rfl⟩
